import Mathlib

/-!
# QGSPCMS_EMV physics list

A shallow embedding of the constructor `QGSPCMS_EMV::QGSPCMS_EMV`
(`SimG4Core/PhysicsLists/plugins/QGSPCMS_EMV.cc`).  The constructor reads four
parameters from an `edm::ParameterSet`, writes one log message and then calls
`RegisterPhysics` on a sequence of freshly built physics constructors.  The
embedding keeps the constructor arguments of every module, the order of the
`RegisterPhysics` calls, and the state of the object at the point where a
parameter lookup throws.
-/

namespace QGSPCMS

/-! ## Host framework: handles, parameter set, message logger -/

/-- Reference to the logical-volume map handed to the base class. -/
structure G4LogicalVolumeToDDLogicalPartMap where
  addr : Nat
deriving DecidableEq, Repr

/-- Pointer to the particle data table (`const HepPDT::ParticleDataTable *`). -/
structure ParticleDataTable where
  addr : Nat
deriving DecidableEq, Repr

/-- Pointer to the magnetic-field builder (`sim::FieldBuilder *`). -/
structure FieldBuilder where
  addr : Nat
deriving DecidableEq, Repr

/-- Modelled from the spec: `edm::ParameterSet` (FWCore/ParameterSet) is not
among the source files; only the three accessor calls of the constructor are.
A parameter set is a table of named `int` values and a table of named `bool`
values.  `int` is a 32-bit machine integer; the constructor performs no
arithmetic on it, so it is carried as an `Int`. -/
structure ParameterSet where
  int32s : List (String × Int)
  bools : List (String × Bool)
deriving DecidableEq, Repr

/-- Exception raised by a parameter lookup. -/
inductive Exception where
  | MissingParameter (name : String)
deriving DecidableEq, Repr

/-- Modelled from the spec: `getUntrackedParameter<int>(name, defaultValue)`
returns the stored value, or `defaultValue` when `name` is absent. -/
def ParameterSet.getUntrackedParameter_int (p : ParameterSet) (name : String)
    (defaultValue : Int) : Int :=
  match p.int32s.lookup name with
  | some v => v
  | none => defaultValue

/-- Modelled from the spec: `getUntrackedParameter<bool>(name, defaultValue)`
returns the stored value, or `defaultValue` when `name` is absent. -/
def ParameterSet.getUntrackedParameter_bool (p : ParameterSet) (name : String)
    (defaultValue : Bool) : Bool :=
  match p.bools.lookup name with
  | some v => v
  | none => defaultValue

/-- Modelled from the spec: `getParameter<bool>(name)` has no default and
throws when `name` is absent. -/
def ParameterSet.getParameter_bool (p : ParameterSet) (name : String) :
    Except Exception Bool :=
  match p.bools.lookup name with
  | some v => Except.ok v
  | none => Except.error (Exception.MissingParameter name)

/-- One operand of the `<<` chain of a log message. -/
inductive LogItem where
  | text (s : String)
  | flag (b : Bool)
deriving DecidableEq, Repr

/-! ## Physics constructors -/

/-- The C++ classes instantiated by the constructor. -/
inductive PhysicsClass where
  | CMSEmStandardPhysics71
  | G4EmExtraPhysics
  | G4DecayPhysics
  | G4HadronElasticPhysics
  | HadronPhysicsQGSP
  | G4QStoppingPhysics
  | G4IonPhysics
  | G4NeutronTrackingCut
  | CMSMonopolePhysics
deriving DecidableEq, Repr

/-- A physics constructor object, with the arguments of its `new` expression. -/
inductive G4VPhysicsConstructor where
  | CMSEmStandardPhysics71 (name : String) (ver : Int)
  | G4EmExtraPhysics (name : String)
  | G4DecayPhysics (name : String) (ver : Int)
  | G4HadronElasticPhysics (name : String) (ver : Int) (hp : Bool)
  | HadronPhysicsQGSP (name : String) (quasiElastic : Bool)
  | G4QStoppingPhysics (name : String)
  | G4IonPhysics (name : String)
  | G4NeutronTrackingCut (name : String) (ver : Int)
  | CMSMonopolePhysics (table : ParticleDataTable) (fieldBuilder : FieldBuilder)
      (p : ParameterSet)
deriving DecidableEq, Repr

/-- The class of a physics constructor object. -/
def G4VPhysicsConstructor.kind : G4VPhysicsConstructor → PhysicsClass
  | .CMSEmStandardPhysics71 _ _ => .CMSEmStandardPhysics71
  | .G4EmExtraPhysics _ => .G4EmExtraPhysics
  | .G4DecayPhysics _ _ => .G4DecayPhysics
  | .G4HadronElasticPhysics _ _ _ => .G4HadronElasticPhysics
  | .HadronPhysicsQGSP _ _ => .HadronPhysicsQGSP
  | .G4QStoppingPhysics _ => .G4QStoppingPhysics
  | .G4IonPhysics _ => .G4IonPhysics
  | .G4NeutronTrackingCut _ _ => .G4NeutronTrackingCut
  | .CMSMonopolePhysics _ _ _ => .CMSMonopolePhysics

/-- The name string passed to a physics constructor; the monopole module is
built from the table, the field builder and the parameter set, without a name. -/
def G4VPhysicsConstructor.name : G4VPhysicsConstructor → Option String
  | .CMSEmStandardPhysics71 n _ => some n
  | .G4EmExtraPhysics n => some n
  | .G4DecayPhysics n _ => some n
  | .G4HadronElasticPhysics n _ _ => some n
  | .HadronPhysicsQGSP n _ => some n
  | .G4QStoppingPhysics n => some n
  | .G4IonPhysics n => some n
  | .G4NeutronTrackingCut n _ => some n
  | .CMSMonopolePhysics _ _ _ => none

/-- The verbosity argument passed to a physics constructor, if it takes one. -/
def G4VPhysicsConstructor.verbosity : G4VPhysicsConstructor → Option Int
  | .CMSEmStandardPhysics71 _ v => some v
  | .G4DecayPhysics _ v => some v
  | .G4HadronElasticPhysics _ v _ => some v
  | .G4NeutronTrackingCut _ v => some v
  | _ => none

/-! ## The physics list object -/

/-- State of the physics list under construction: the registered physics
constructors in registration order, and the log messages issued (category and
streamed operands). -/
structure PhysicsList where
  physicsVector : List G4VPhysicsConstructor
  messages : List (String × List LogItem)
deriving DecidableEq, Repr

/-- Base-class constructor `PhysicsList(map, table_, fieldBuilder_, p)`: the
object starts with no registered physics. -/
def PhysicsList.ctor (_map : G4LogicalVolumeToDDLogicalPartMap)
    (_table : ParticleDataTable) (_fieldBuilder : FieldBuilder) (_p : ParameterSet) :
    PhysicsList :=
  { physicsVector := [], messages := [] }

/-- Method `RegisterPhysics(physics)`: the constructor is appended to the list. -/
def PhysicsList.RegisterPhysics (self : PhysicsList) (physics : G4VPhysicsConstructor) :
    PhysicsList :=
  { self with physicsVector := self.physicsVector ++ [physics] }

/-- Statement `edm::LogInfo(category) << ...`: one message is issued. -/
def PhysicsList.LogInfo (self : PhysicsList) (category : String) (items : List LogItem) :
    PhysicsList :=
  { self with messages := self.messages ++ [(category, items)] }

/-- Outcome of running a constructor body: either the finished object, or the
exception thrown together with the state of the object when it was thrown. -/
inductive Construction where
  | constructed (self : PhysicsList)
  | thrown (e : Exception) (self : PhysicsList)
deriving DecidableEq, Repr

/-- The state of the object at the end of the constructor body or at the throw. -/
def Construction.state : Construction → PhysicsList
  | .constructed self => self
  | .thrown _ self => self

/-- Whether construction ended by an exception. -/
def Construction.failed : Construction → Bool
  | .constructed _ => false
  | .thrown _ _ => true

/-- The physics constructors registered, in registration order. -/
def Construction.registered (c : Construction) : List G4VPhysicsConstructor :=
  c.state.physicsVector

/-- The names given to the registered physics constructors, in order. -/
def Construction.names (c : Construction) : List String :=
  c.registered.filterMap G4VPhysicsConstructor.name

/-- The classes of the registered physics constructors, in order. -/
def Construction.kinds (c : Construction) : List PhysicsClass :=
  c.registered.map G4VPhysicsConstructor.kind

/-! ## The constructor -/

/-- Constructor `QGSPCMS_EMV::QGSPCMS_EMV(map, table_, fieldBuilder_, p)`.
`G4DataQuestionaire it(photon)` only inspects the data environment of the
toolkit and touches neither the parameter set nor the list. -/
def QGSPCMS_EMV (map : G4LogicalVolumeToDDLogicalPartMap) (table_ : ParticleDataTable)
    (fieldBuilder_ : FieldBuilder) (p : ParameterSet) : Construction :=
  let self := PhysicsList.ctor map table_ fieldBuilder_ p
  let ver := p.getUntrackedParameter_int "Verbosity" 0
  let emPhys := p.getUntrackedParameter_bool "EMPhysics" true
  let hadPhys := p.getUntrackedParameter_bool "HadPhysics" true
  match p.getParameter_bool "TrackingCut" with
  | .error e => .thrown e self
  | .ok tracking =>
    let self := self.LogInfo "PhysicsList"
      [.text "You are using the simulation engine: ",
       .text "QGSP_EMV 3.3 with Flags for EM Physics ",
       .flag emPhys, .text ", for Hadronic Physics ",
       .flag hadPhys, .text " and tracking cut ", .flag tracking]
    let self :=
      if emPhys then
        -- EM Physics
        let self := self.RegisterPhysics (.CMSEmStandardPhysics71 "standard EM v71" ver)
        -- Synchroton Radiation & GN Physics
        self.RegisterPhysics (.G4EmExtraPhysics "extra EM")
      else self
    -- Decays
    let self := self.RegisterPhysics (.G4DecayPhysics "decay" ver)
    let self :=
      if hadPhys then
        -- Hadron Elastic scattering
        let self := self.RegisterPhysics (.G4HadronElasticPhysics "elastic" ver false)
        -- Hadron Physics
        let quasiElastic := true
        let self := self.RegisterPhysics (.HadronPhysicsQGSP "hadron" quasiElastic)
        -- Stopping Physics
        let self := self.RegisterPhysics (.G4QStoppingPhysics "stopping")
        -- Ion Physics
        let self := self.RegisterPhysics (.G4IonPhysics "ion")
        -- Neutron tracking cut
        if tracking then
          self.RegisterPhysics (.G4NeutronTrackingCut "Neutron tracking cut" ver)
        else self
      else self
    -- Monopoles
    .constructed (self.RegisterPhysics (.CMSMonopolePhysics table_ fieldBuilder_ p))

/-! ## Sample configurations -/

/-- A logical-volume map handle. -/
def map0 : G4LogicalVolumeToDDLogicalPartMap := ⟨0⟩

/-- A particle data table handle. -/
def table0 : ParticleDataTable := ⟨0⟩

/-- A field builder handle. -/
def fieldBuilder0 : FieldBuilder := ⟨0⟩

/-- The empty parameter set. -/
def cfgEmpty : ParameterSet := ⟨[], []⟩

/-- Only `TrackingCut = true`. -/
def cfgTrackingOn : ParameterSet := ⟨[], [("TrackingCut", true)]⟩

/-- Only `TrackingCut = false`. -/
def cfgTrackingOff : ParameterSet := ⟨[], [("TrackingCut", false)]⟩

/-- Both physics groups switched off, `TrackingCut = true`. -/
def cfgBare : ParameterSet :=
  ⟨[], [("EMPhysics", false), ("HadPhysics", false), ("TrackingCut", true)]⟩

/-- Both physics groups switched off, `TrackingCut = false`. -/
def cfgBareOff : ParameterSet :=
  ⟨[], [("EMPhysics", false), ("HadPhysics", false), ("TrackingCut", false)]⟩

/-- Both physics groups switched off, `TrackingCut` not given. -/
def cfgBareNoTracking : ParameterSet :=
  ⟨[], [("EMPhysics", false), ("HadPhysics", false)]⟩

/-- Both physics groups switched on, `TrackingCut` not given. -/
def cfgFlagsNoTracking : ParameterSet :=
  ⟨[], [("EMPhysics", true), ("HadPhysics", true)]⟩

/-- All three flags given as `true`, with `Verbosity = 2`. -/
def cfgFull : ParameterSet :=
  ⟨[("Verbosity", 2)], [("EMPhysics", true), ("HadPhysics", true), ("TrackingCut", true)]⟩

/-- All three flags given as `true`, with `Verbosity = 7`. -/
def cfgFullLoud : ParameterSet :=
  ⟨[("Verbosity", 7)], [("EMPhysics", true), ("HadPhysics", true), ("TrackingCut", true)]⟩

/-- Electromagnetic physics off, hadronic physics on, with `Verbosity = 2`. -/
def cfgHadOnly : ParameterSet :=
  ⟨[("Verbosity", 2)], [("EMPhysics", false), ("HadPhysics", true), ("TrackingCut", true)]⟩

/-! ## Outcome of the constructor -/

/-- With `TrackingCut` present the constructor completes; the state it leaves is
the message followed by the guarded registrations, in source order. -/
theorem QGSPCMS_EMV_present (map : G4LogicalVolumeToDDLogicalPartMap)
    (table_ : ParticleDataTable) (fieldBuilder_ : FieldBuilder) (p : ParameterSet)
    (ver : Int) (emPhys hadPhys tracking : Bool)
    (hver : p.getUntrackedParameter_int "Verbosity" 0 = ver)
    (hem : p.getUntrackedParameter_bool "EMPhysics" true = emPhys)
    (hhad : p.getUntrackedParameter_bool "HadPhysics" true = hadPhys)
    (htr : p.getParameter_bool "TrackingCut" = Except.ok tracking) :
    QGSPCMS_EMV map table_ fieldBuilder_ p =
      Construction.constructed
        { physicsVector :=
            (if emPhys then
              [G4VPhysicsConstructor.CMSEmStandardPhysics71 "standard EM v71" ver,
               G4VPhysicsConstructor.G4EmExtraPhysics "extra EM"]
             else []) ++
            [G4VPhysicsConstructor.G4DecayPhysics "decay" ver] ++
            (if hadPhys then
              [G4VPhysicsConstructor.G4HadronElasticPhysics "elastic" ver false,
               G4VPhysicsConstructor.HadronPhysicsQGSP "hadron" true,
               G4VPhysicsConstructor.G4QStoppingPhysics "stopping",
               G4VPhysicsConstructor.G4IonPhysics "ion"] ++
              (if tracking then
                [G4VPhysicsConstructor.G4NeutronTrackingCut "Neutron tracking cut" ver]
               else [])
             else []) ++
            [G4VPhysicsConstructor.CMSMonopolePhysics table_ fieldBuilder_ p],
          messages :=
            [("PhysicsList",
              [LogItem.text "You are using the simulation engine: ",
               LogItem.text "QGSP_EMV 3.3 with Flags for EM Physics ",
               LogItem.flag emPhys, LogItem.text ", for Hadronic Physics ",
               LogItem.flag hadPhys, LogItem.text " and tracking cut ",
               LogItem.flag tracking])] } := by
  unfold QGSPCMS_EMV
  rw [hver, hem, hhad, htr]
  cases emPhys <;> cases hadPhys <;> cases tracking <;>
    simp [PhysicsList.ctor, PhysicsList.RegisterPhysics, PhysicsList.LogInfo]

/-- With `TrackingCut` missing the lookup throws before the message is written
and before any `RegisterPhysics` call. -/
theorem QGSPCMS_EMV_absent (map : G4LogicalVolumeToDDLogicalPartMap)
    (table_ : ParticleDataTable) (fieldBuilder_ : FieldBuilder) (p : ParameterSet)
    (e : Exception) (htr : p.getParameter_bool "TrackingCut" = Except.error e) :
    QGSPCMS_EMV map table_ fieldBuilder_ p =
      Construction.thrown e { physicsVector := [], messages := [] } := by
  unfold QGSPCMS_EMV
  rw [htr]
  simp [PhysicsList.ctor]

/-- A `bool` lookup without default succeeds exactly on the stored value. -/
theorem getParameter_bool_ok_iff (p : ParameterSet) (name : String) (v : Bool) :
    p.getParameter_bool name = Except.ok v ↔ p.bools.lookup name = some v := by
  unfold ParameterSet.getParameter_bool
  cases h : p.bools.lookup name <;> simp

/-- Names registered when `TrackingCut` is present. -/
theorem names_present (map : G4LogicalVolumeToDDLogicalPartMap)
    (table_ : ParticleDataTable) (fieldBuilder_ : FieldBuilder) (p : ParameterSet)
    (emPhys hadPhys tracking : Bool)
    (hem : p.getUntrackedParameter_bool "EMPhysics" true = emPhys)
    (hhad : p.getUntrackedParameter_bool "HadPhysics" true = hadPhys)
    (htr : p.getParameter_bool "TrackingCut" = Except.ok tracking) :
    (QGSPCMS_EMV map table_ fieldBuilder_ p).names =
      (if emPhys then ["standard EM v71", "extra EM"] else []) ++ ["decay"] ++
      (if hadPhys then
        ["elastic", "hadron", "stopping", "ion"] ++
        (if tracking then ["Neutron tracking cut"] else [])
       else []) := by
  rw [QGSPCMS_EMV_present map table_ fieldBuilder_ p _ emPhys hadPhys tracking rfl hem hhad htr]
  cases emPhys <;> cases hadPhys <;> cases tracking <;>
    simp [Construction.names, Construction.registered, Construction.state,
      G4VPhysicsConstructor.name]

/-- Classes registered when `TrackingCut` is present. -/
theorem kinds_present (map : G4LogicalVolumeToDDLogicalPartMap)
    (table_ : ParticleDataTable) (fieldBuilder_ : FieldBuilder) (p : ParameterSet)
    (emPhys hadPhys tracking : Bool)
    (hem : p.getUntrackedParameter_bool "EMPhysics" true = emPhys)
    (hhad : p.getUntrackedParameter_bool "HadPhysics" true = hadPhys)
    (htr : p.getParameter_bool "TrackingCut" = Except.ok tracking) :
    (QGSPCMS_EMV map table_ fieldBuilder_ p).kinds =
      (if emPhys then
        [PhysicsClass.CMSEmStandardPhysics71, PhysicsClass.G4EmExtraPhysics]
       else []) ++ [PhysicsClass.G4DecayPhysics] ++
      (if hadPhys then
        [PhysicsClass.G4HadronElasticPhysics, PhysicsClass.HadronPhysicsQGSP,
         PhysicsClass.G4QStoppingPhysics, PhysicsClass.G4IonPhysics] ++
        (if tracking then [PhysicsClass.G4NeutronTrackingCut] else [])
       else []) ++ [PhysicsClass.CMSMonopolePhysics] := by
  rw [QGSPCMS_EMV_present map table_ fieldBuilder_ p _ emPhys hadPhys tracking rfl hem hhad htr]
  cases emPhys <;> cases hadPhys <;> cases tracking <;>
    simp [Construction.kinds, Construction.registered, Construction.state,
      G4VPhysicsConstructor.kind]

/-- An electromagnetic name is registered exactly when `EMPhysics` is true. -/
theorem em_name_registered_iff (map : G4LogicalVolumeToDDLogicalPartMap)
    (table_ : ParticleDataTable) (fieldBuilder_ : FieldBuilder) (p : ParameterSet)
    (emPhys hadPhys tracking : Bool)
    (hem : p.getUntrackedParameter_bool "EMPhysics" true = emPhys)
    (hhad : p.getUntrackedParameter_bool "HadPhysics" true = hadPhys)
    (htr : p.getParameter_bool "TrackingCut" = Except.ok tracking) :
    ∀ n ∈ ["standard EM v71", "extra EM"],
      (n ∈ (QGSPCMS_EMV map table_ fieldBuilder_ p).names ↔ emPhys = true) := by
  rw [names_present map table_ fieldBuilder_ p emPhys hadPhys tracking hem hhad htr]
  cases emPhys <;> cases hadPhys <;> cases tracking <;> simp

/-- A hadronic name is registered exactly when `HadPhysics` is true. -/
theorem had_name_registered_iff (map : G4LogicalVolumeToDDLogicalPartMap)
    (table_ : ParticleDataTable) (fieldBuilder_ : FieldBuilder) (p : ParameterSet)
    (emPhys hadPhys tracking : Bool)
    (hem : p.getUntrackedParameter_bool "EMPhysics" true = emPhys)
    (hhad : p.getUntrackedParameter_bool "HadPhysics" true = hadPhys)
    (htr : p.getParameter_bool "TrackingCut" = Except.ok tracking) :
    ∀ n ∈ ["elastic", "hadron", "stopping", "ion"],
      (n ∈ (QGSPCMS_EMV map table_ fieldBuilder_ p).names ↔ hadPhys = true) := by
  rw [names_present map table_ fieldBuilder_ p emPhys hadPhys tracking hem hhad htr]
  cases emPhys <;> cases hadPhys <;> cases tracking <;> simp

/-! ## C1: the registered set -/

/-- C1 (counterexample): the registered set is not the same for every
configuration.  With `EMPhysics = false`, `HadPhysics = false` and
`TrackingCut = true` only the decay and monopole modules are registered, so the
electromagnetic, hadronic, stopping and ion modules are missing, whereas with
all three flags `true` the electromagnetic module is registered; and with
`TrackingCut` not given nothing is registered at all. -/
theorem C1_counterexample :
    (QGSPCMS_EMV map0 table0 fieldBuilder0 cfgBare).kinds =
        [PhysicsClass.G4DecayPhysics, PhysicsClass.CMSMonopolePhysics] ∧
      PhysicsClass.CMSEmStandardPhysics71 ∉ (QGSPCMS_EMV map0 table0 fieldBuilder0 cfgBare).kinds ∧
      PhysicsClass.HadronPhysicsQGSP ∉ (QGSPCMS_EMV map0 table0 fieldBuilder0 cfgBare).kinds ∧
      PhysicsClass.G4QStoppingPhysics ∉ (QGSPCMS_EMV map0 table0 fieldBuilder0 cfgBare).kinds ∧
      PhysicsClass.G4IonPhysics ∉ (QGSPCMS_EMV map0 table0 fieldBuilder0 cfgBare).kinds ∧
      PhysicsClass.CMSEmStandardPhysics71 ∈ (QGSPCMS_EMV map0 table0 fieldBuilder0 cfgFull).kinds ∧
      (QGSPCMS_EMV map0 table0 fieldBuilder0 cfgEmpty).kinds = [] := by
  decide

/-- C1 (amended): the registered set is fixed by the flags, not the same for
every configuration.  When the `TrackingCut` lookup throws, nothing is
registered.  When `TrackingCut` is present, the registered classes are exactly:
the decay and monopole modules always; the two electromagnetic modules exactly
when `EMPhysics` is true; the elastic, hadron, stopping and ion modules exactly
when `HadPhysics` is true; the neutron tracking cut exactly when `HadPhysics`
and `TrackingCut` are both true.  So the set contains the electromagnetic
modules whenever `EMPhysics` is true and the hadronic, stopping and ion modules
whenever `HadPhysics` is true. -/
theorem C1_registered_set_by_flags (map : G4LogicalVolumeToDDLogicalPartMap)
    (table_ : ParticleDataTable) (fieldBuilder_ : FieldBuilder) (p : ParameterSet)
    (emPhys hadPhys : Bool)
    (hem : p.getUntrackedParameter_bool "EMPhysics" true = emPhys)
    (hhad : p.getUntrackedParameter_bool "HadPhysics" true = hadPhys) :
    (∀ e : Exception, p.getParameter_bool "TrackingCut" = Except.error e →
        (QGSPCMS_EMV map table_ fieldBuilder_ p).kinds = []) ∧
      (∀ tracking : Bool, p.getParameter_bool "TrackingCut" = Except.ok tracking →
        (QGSPCMS_EMV map table_ fieldBuilder_ p).kinds =
            (if emPhys then
              [PhysicsClass.CMSEmStandardPhysics71, PhysicsClass.G4EmExtraPhysics]
             else []) ++ [PhysicsClass.G4DecayPhysics] ++
            (if hadPhys then
              [PhysicsClass.G4HadronElasticPhysics, PhysicsClass.HadronPhysicsQGSP,
               PhysicsClass.G4QStoppingPhysics, PhysicsClass.G4IonPhysics] ++
              (if tracking then [PhysicsClass.G4NeutronTrackingCut] else [])
             else []) ++ [PhysicsClass.CMSMonopolePhysics] ∧
          (∀ k : PhysicsClass, k ∈ (QGSPCMS_EMV map table_ fieldBuilder_ p).kinds ↔
            (k = PhysicsClass.G4DecayPhysics ∨ k = PhysicsClass.CMSMonopolePhysics ∨
              (emPhys = true ∧
                (k = PhysicsClass.CMSEmStandardPhysics71 ∨ k = PhysicsClass.G4EmExtraPhysics)) ∨
              (hadPhys = true ∧
                (k = PhysicsClass.G4HadronElasticPhysics ∨ k = PhysicsClass.HadronPhysicsQGSP ∨
                  k = PhysicsClass.G4QStoppingPhysics ∨ k = PhysicsClass.G4IonPhysics)) ∨
              (hadPhys = true ∧ tracking = true ∧ k = PhysicsClass.G4NeutronTrackingCut))) ∧
          (emPhys = true →
            PhysicsClass.CMSEmStandardPhysics71 ∈ (QGSPCMS_EMV map table_ fieldBuilder_ p).kinds ∧
              PhysicsClass.G4EmExtraPhysics ∈ (QGSPCMS_EMV map table_ fieldBuilder_ p).kinds) ∧
          (hadPhys = true →
            PhysicsClass.G4HadronElasticPhysics ∈ (QGSPCMS_EMV map table_ fieldBuilder_ p).kinds ∧
              PhysicsClass.HadronPhysicsQGSP ∈ (QGSPCMS_EMV map table_ fieldBuilder_ p).kinds ∧
              PhysicsClass.G4QStoppingPhysics ∈ (QGSPCMS_EMV map table_ fieldBuilder_ p).kinds ∧
              PhysicsClass.G4IonPhysics ∈ (QGSPCMS_EMV map table_ fieldBuilder_ p).kinds)) := by
  refine ⟨?_, ?_⟩
  · intro e htr
    rw [QGSPCMS_EMV_absent map table_ fieldBuilder_ p e htr]
    simp [Construction.kinds, Construction.registered, Construction.state]
  · intro tracking htr
    rw [kinds_present map table_ fieldBuilder_ p emPhys hadPhys tracking hem hhad htr]
    refine ⟨rfl, ?_, ?_, ?_⟩
    · intro k
      cases emPhys <;> cases hadPhys <;> cases tracking <;> cases k <;> simp
    · intro h
      subst h
      simp
    · intro h
      subst h
      cases emPhys <;> simp

/-- C1 (amended), instance: electromagnetic physics off, hadronic physics on. -/
theorem C1_registered_set_by_flags_witness :
    cfgHadOnly.getUntrackedParameter_bool "EMPhysics" true = false ∧
      cfgHadOnly.getUntrackedParameter_bool "HadPhysics" true = true ∧
      cfgHadOnly.getParameter_bool "TrackingCut" = Except.ok true ∧
      (QGSPCMS_EMV map0 table0 fieldBuilder0 cfgHadOnly).kinds =
        (if false then
          [PhysicsClass.CMSEmStandardPhysics71, PhysicsClass.G4EmExtraPhysics]
         else []) ++ [PhysicsClass.G4DecayPhysics] ++
        (if true then
          [PhysicsClass.G4HadronElasticPhysics, PhysicsClass.HadronPhysicsQGSP,
           PhysicsClass.G4QStoppingPhysics, PhysicsClass.G4IonPhysics] ++
          (if true then [PhysicsClass.G4NeutronTrackingCut] else [])
         else []) ++ [PhysicsClass.CMSMonopolePhysics] :=
  ⟨rfl, rfl, rfl,
    ((C1_registered_set_by_flags map0 table0 fieldBuilder0 cfgHadOnly false true
      rfl rfl).2 true rfl).1⟩

/-! ## C2: the registered sequence -/

/-- C2: for every configuration in which `TrackingCut` is present, the
constructor completes and the registered sequence is, in this order: the two
electromagnetic modules "standard EM v71" and "extra EM" if `emPhys`; then
"decay"; then, if `hadPhys`, "elastic", "hadron", "stopping", "ion" followed by
"Neutron tracking cut" when `tracking`; then the monopole module.  With all
three flags true it is exactly the nine modules, and its length is always
`2 + 2*[emPhys] + [hadPhys]*(4 + [tracking])`. -/
theorem C2_registered_sequence (map : G4LogicalVolumeToDDLogicalPartMap)
    (table_ : ParticleDataTable) (fieldBuilder_ : FieldBuilder) (p : ParameterSet)
    (ver : Int) (emPhys hadPhys tracking : Bool)
    (hver : p.getUntrackedParameter_int "Verbosity" 0 = ver)
    (hem : p.getUntrackedParameter_bool "EMPhysics" true = emPhys)
    (hhad : p.getUntrackedParameter_bool "HadPhysics" true = hadPhys)
    (htr : p.getParameter_bool "TrackingCut" = Except.ok tracking) :
    (QGSPCMS_EMV map table_ fieldBuilder_ p).failed = false ∧
      (QGSPCMS_EMV map table_ fieldBuilder_ p).registered =
        (if emPhys then
          [G4VPhysicsConstructor.CMSEmStandardPhysics71 "standard EM v71" ver,
           G4VPhysicsConstructor.G4EmExtraPhysics "extra EM"]
         else []) ++
        [G4VPhysicsConstructor.G4DecayPhysics "decay" ver] ++
        (if hadPhys then
          [G4VPhysicsConstructor.G4HadronElasticPhysics "elastic" ver false,
           G4VPhysicsConstructor.HadronPhysicsQGSP "hadron" true,
           G4VPhysicsConstructor.G4QStoppingPhysics "stopping",
           G4VPhysicsConstructor.G4IonPhysics "ion"] ++
          (if tracking then
            [G4VPhysicsConstructor.G4NeutronTrackingCut "Neutron tracking cut" ver]
           else [])
         else []) ++
        [G4VPhysicsConstructor.CMSMonopolePhysics table_ fieldBuilder_ p] ∧
      (QGSPCMS_EMV map table_ fieldBuilder_ p).names =
        (if emPhys then ["standard EM v71", "extra EM"] else []) ++ ["decay"] ++
        (if hadPhys then
          ["elastic", "hadron", "stopping", "ion"] ++
          (if tracking then ["Neutron tracking cut"] else [])
         else []) ∧
      (QGSPCMS_EMV map table_ fieldBuilder_ p).registered.length =
        2 + 2 * emPhys.toNat + hadPhys.toNat * (4 + tracking.toNat) ∧
      (emPhys = true → hadPhys = true → tracking = true →
        (QGSPCMS_EMV map table_ fieldBuilder_ p).registered =
          [G4VPhysicsConstructor.CMSEmStandardPhysics71 "standard EM v71" ver,
           G4VPhysicsConstructor.G4EmExtraPhysics "extra EM",
           G4VPhysicsConstructor.G4DecayPhysics "decay" ver,
           G4VPhysicsConstructor.G4HadronElasticPhysics "elastic" ver false,
           G4VPhysicsConstructor.HadronPhysicsQGSP "hadron" true,
           G4VPhysicsConstructor.G4QStoppingPhysics "stopping",
           G4VPhysicsConstructor.G4IonPhysics "ion",
           G4VPhysicsConstructor.G4NeutronTrackingCut "Neutron tracking cut" ver,
           G4VPhysicsConstructor.CMSMonopolePhysics table_ fieldBuilder_ p]) := by
  rw [QGSPCMS_EMV_present map table_ fieldBuilder_ p ver emPhys hadPhys tracking hver hem hhad htr]
  cases emPhys <;> cases hadPhys <;> cases tracking <;>
    simp [Construction.failed, Construction.names, Construction.registered,
      Construction.state, G4VPhysicsConstructor.name]

/-- C2, instance: `Verbosity = 2` and all three flags `true` give nine modules. -/
theorem C2_registered_sequence_witness :
    cfgFull.getUntrackedParameter_int "Verbosity" 0 = 2 ∧
      cfgFull.getUntrackedParameter_bool "EMPhysics" true = true ∧
      cfgFull.getUntrackedParameter_bool "HadPhysics" true = true ∧
      cfgFull.getParameter_bool "TrackingCut" = Except.ok true ∧
      (QGSPCMS_EMV map0 table0 fieldBuilder0 cfgFull).registered.length =
        2 + 2 * true.toNat + true.toNat * (4 + true.toNat) :=
  ⟨rfl, rfl, rfl, rfl,
    (C2_registered_sequence map0 table0 fieldBuilder0 cfgFull 2 true true true
      rfl rfl rfl rfl).2.2.2.1⟩

/-! ## C3: decay and monopole -/

/-- C3 (counterexample): with `EMPhysics = false`, `HadPhysics = false` and
`TrackingCut` not given, the lookup of `TrackingCut` throws before any
registration: the decay and monopole modules are registered zero times, there
is no last module, and the registered sequence is empty rather than decay,
monopole. -/
theorem C3_counterexample :
    cfgBareNoTracking.bools.lookup "TrackingCut" = none ∧
      cfgBareNoTracking.getUntrackedParameter_bool "EMPhysics" true = false ∧
      cfgBareNoTracking.getUntrackedParameter_bool "HadPhysics" true = false ∧
      (QGSPCMS_EMV map0 table0 fieldBuilder0 cfgBareNoTracking).failed = true ∧
      (QGSPCMS_EMV map0 table0 fieldBuilder0 cfgBareNoTracking).kinds.count
        PhysicsClass.G4DecayPhysics = 0 ∧
      (QGSPCMS_EMV map0 table0 fieldBuilder0 cfgBareNoTracking).kinds.count
        PhysicsClass.CMSMonopolePhysics = 0 ∧
      (QGSPCMS_EMV map0 table0 fieldBuilder0 cfgBareNoTracking).registered.getLast? = none ∧
      (QGSPCMS_EMV map0 table0 fieldBuilder0 cfgBareNoTracking).registered = [] ∧
      (QGSPCMS_EMV map0 table0 fieldBuilder0 cfgBareNoTracking).registered ≠
        [G4VPhysicsConstructor.G4DecayPhysics "decay" 0,
         G4VPhysicsConstructor.CMSMonopolePhysics table0 fieldBuilder0 cfgBareNoTracking] := by
  decide

/-- C3 (amended): for every configuration in which `TrackingCut` is present,
the decay module and the monopole module are each registered exactly once
regardless of the `EMPhysics`, `HadPhysics` and `TrackingCut` flags, the
monopole module is the last one registered, and with `EMPhysics = false` and
`HadPhysics = false` the registered sequence is exactly decay, monopole. -/
theorem C3_decay_and_monopole_once (map : G4LogicalVolumeToDDLogicalPartMap)
    (table_ : ParticleDataTable) (fieldBuilder_ : FieldBuilder) (p : ParameterSet)
    (ver : Int) (emPhys hadPhys tracking : Bool)
    (hver : p.getUntrackedParameter_int "Verbosity" 0 = ver)
    (hem : p.getUntrackedParameter_bool "EMPhysics" true = emPhys)
    (hhad : p.getUntrackedParameter_bool "HadPhysics" true = hadPhys)
    (htr : p.getParameter_bool "TrackingCut" = Except.ok tracking) :
    (QGSPCMS_EMV map table_ fieldBuilder_ p).kinds.count PhysicsClass.G4DecayPhysics = 1 ∧
      (QGSPCMS_EMV map table_ fieldBuilder_ p).kinds.count PhysicsClass.CMSMonopolePhysics = 1 ∧
      (QGSPCMS_EMV map table_ fieldBuilder_ p).names.count "decay" = 1 ∧
      (QGSPCMS_EMV map table_ fieldBuilder_ p).registered.getLast? =
        some (G4VPhysicsConstructor.CMSMonopolePhysics table_ fieldBuilder_ p) ∧
      (emPhys = false → hadPhys = false →
        (QGSPCMS_EMV map table_ fieldBuilder_ p).registered =
          [G4VPhysicsConstructor.G4DecayPhysics "decay" ver,
           G4VPhysicsConstructor.CMSMonopolePhysics table_ fieldBuilder_ p]) := by
  rw [QGSPCMS_EMV_present map table_ fieldBuilder_ p ver emPhys hadPhys tracking hver hem hhad htr]
  cases emPhys <;> cases hadPhys <;> cases tracking <;>
    simp [Construction.kinds, Construction.names, Construction.registered,
      Construction.state, G4VPhysicsConstructor.kind, G4VPhysicsConstructor.name]

/-- C3 (amended), instance: both physics groups switched off. -/
theorem C3_decay_and_monopole_once_witness :
    cfgBare.getUntrackedParameter_int "Verbosity" 0 = 0 ∧
      cfgBare.getUntrackedParameter_bool "EMPhysics" true = false ∧
      cfgBare.getUntrackedParameter_bool "HadPhysics" true = false ∧
      cfgBare.getParameter_bool "TrackingCut" = Except.ok true ∧
      (QGSPCMS_EMV map0 table0 fieldBuilder0 cfgBare).registered =
        [G4VPhysicsConstructor.G4DecayPhysics "decay" 0,
         G4VPhysicsConstructor.CMSMonopolePhysics table0 fieldBuilder0 cfgBare] :=
  ⟨rfl, rfl, rfl, rfl,
    (C3_decay_and_monopole_once map0 table0 fieldBuilder0 cfgBare 0 false false true
      rfl rfl rfl rfl).2.2.2.2 rfl rfl⟩

/-! ## C4: each flag guards its own group -/

/-- C4 (counterexample): with `EMPhysics = true`, `HadPhysics = true` and
`TrackingCut` not given, the lookup of `TrackingCut` throws before any
registration: both flags are true, yet none of the electromagnetic and none of
the hadronic modules is registered. -/
theorem C4_counterexample :
    cfgFlagsNoTracking.bools.lookup "TrackingCut" = none ∧
      cfgFlagsNoTracking.getUntrackedParameter_bool "EMPhysics" true = true ∧
      cfgFlagsNoTracking.getUntrackedParameter_bool "HadPhysics" true = true ∧
      (QGSPCMS_EMV map0 table0 fieldBuilder0 cfgFlagsNoTracking).failed = true ∧
      (QGSPCMS_EMV map0 table0 fieldBuilder0 cfgFlagsNoTracking).registered = [] ∧
      "standard EM v71" ∉ (QGSPCMS_EMV map0 table0 fieldBuilder0 cfgFlagsNoTracking).names ∧
      "extra EM" ∉ (QGSPCMS_EMV map0 table0 fieldBuilder0 cfgFlagsNoTracking).names ∧
      "elastic" ∉ (QGSPCMS_EMV map0 table0 fieldBuilder0 cfgFlagsNoTracking).names ∧
      "hadron" ∉ (QGSPCMS_EMV map0 table0 fieldBuilder0 cfgFlagsNoTracking).names ∧
      "stopping" ∉ (QGSPCMS_EMV map0 table0 fieldBuilder0 cfgFlagsNoTracking).names ∧
      "ion" ∉ (QGSPCMS_EMV map0 table0 fieldBuilder0 cfgFlagsNoTracking).names := by
  decide

/-- C4 (amended): for every configuration in which `TrackingCut` is present,
the two electromagnetic modules "standard EM v71" and "extra EM" are
registered if and only if `EMPhysics` is true, and the four hadronic modules
"elastic", "hadron", "stopping" and "ion" are registered if and only if
`HadPhysics` is true.  Two such configurations with the same `HadPhysics`
register the same hadronic modules whatever their `EMPhysics`, and two with the
same `EMPhysics` register the same electromagnetic modules whatever their
`HadPhysics`. -/
theorem C4_flag_guards_own_group (map : G4LogicalVolumeToDDLogicalPartMap)
    (table_ : ParticleDataTable) (fieldBuilder_ : FieldBuilder) (p q : ParameterSet)
    (emP hadP trP emQ hadQ trQ : Bool)
    (hemP : p.getUntrackedParameter_bool "EMPhysics" true = emP)
    (hhadP : p.getUntrackedParameter_bool "HadPhysics" true = hadP)
    (htrP : p.getParameter_bool "TrackingCut" = Except.ok trP)
    (hemQ : q.getUntrackedParameter_bool "EMPhysics" true = emQ)
    (hhadQ : q.getUntrackedParameter_bool "HadPhysics" true = hadQ)
    (htrQ : q.getParameter_bool "TrackingCut" = Except.ok trQ) :
    (∀ n ∈ ["standard EM v71", "extra EM"],
        (n ∈ (QGSPCMS_EMV map table_ fieldBuilder_ p).names ↔ emP = true)) ∧
      (∀ k ∈ [PhysicsClass.CMSEmStandardPhysics71, PhysicsClass.G4EmExtraPhysics],
        (k ∈ (QGSPCMS_EMV map table_ fieldBuilder_ p).kinds ↔ emP = true)) ∧
      (∀ n ∈ ["elastic", "hadron", "stopping", "ion"],
        (n ∈ (QGSPCMS_EMV map table_ fieldBuilder_ p).names ↔ hadP = true)) ∧
      (∀ k ∈ [PhysicsClass.G4HadronElasticPhysics, PhysicsClass.HadronPhysicsQGSP,
              PhysicsClass.G4QStoppingPhysics, PhysicsClass.G4IonPhysics],
        (k ∈ (QGSPCMS_EMV map table_ fieldBuilder_ p).kinds ↔ hadP = true)) ∧
      (hadP = hadQ → ∀ n ∈ ["elastic", "hadron", "stopping", "ion"],
        (n ∈ (QGSPCMS_EMV map table_ fieldBuilder_ p).names ↔
          n ∈ (QGSPCMS_EMV map table_ fieldBuilder_ q).names)) ∧
      (emP = emQ → ∀ n ∈ ["standard EM v71", "extra EM"],
        (n ∈ (QGSPCMS_EMV map table_ fieldBuilder_ p).names ↔
          n ∈ (QGSPCMS_EMV map table_ fieldBuilder_ q).names)) := by
  refine ⟨em_name_registered_iff map table_ fieldBuilder_ p emP hadP trP hemP hhadP htrP,
    ?_, had_name_registered_iff map table_ fieldBuilder_ p emP hadP trP hemP hhadP htrP,
    ?_, ?_, ?_⟩
  · rw [kinds_present map table_ fieldBuilder_ p emP hadP trP hemP hhadP htrP]
    cases emP <;> cases hadP <;> cases trP <;> simp
  · rw [kinds_present map table_ fieldBuilder_ p emP hadP trP hemP hhadP htrP]
    cases emP <;> cases hadP <;> cases trP <;> simp
  · intro hsame n hn
    rw [had_name_registered_iff map table_ fieldBuilder_ p emP hadP trP hemP hhadP htrP n hn,
      had_name_registered_iff map table_ fieldBuilder_ q emQ hadQ trQ hemQ hhadQ htrQ n hn,
      hsame]
  · intro hsame n hn
    rw [em_name_registered_iff map table_ fieldBuilder_ p emP hadP trP hemP hhadP htrP n hn,
      em_name_registered_iff map table_ fieldBuilder_ q emQ hadQ trQ hemQ hhadQ htrQ n hn,
      hsame]

/-- C4 (amended), instance: two configurations that differ only in `EMPhysics`. -/
theorem C4_flag_guards_own_group_witness :
    cfgHadOnly.getUntrackedParameter_bool "EMPhysics" true = false ∧
      cfgHadOnly.getUntrackedParameter_bool "HadPhysics" true = true ∧
      cfgHadOnly.getParameter_bool "TrackingCut" = Except.ok true ∧
      cfgFull.getUntrackedParameter_bool "EMPhysics" true = true ∧
      cfgFull.getUntrackedParameter_bool "HadPhysics" true = true ∧
      cfgFull.getParameter_bool "TrackingCut" = Except.ok true ∧
      ("extra EM" ∈ (QGSPCMS_EMV map0 table0 fieldBuilder0 cfgHadOnly).names ↔ false = true) ∧
      ("hadron" ∈ (QGSPCMS_EMV map0 table0 fieldBuilder0 cfgHadOnly).names ↔
        "hadron" ∈ (QGSPCMS_EMV map0 table0 fieldBuilder0 cfgFull).names) :=
  ⟨rfl, rfl, rfl, rfl, rfl, rfl,
    (C4_flag_guards_own_group map0 table0 fieldBuilder0 cfgHadOnly cfgFull
      false true true true true true rfl rfl rfl rfl rfl rfl).1 "extra EM" (by decide),
    (C4_flag_guards_own_group map0 table0 fieldBuilder0 cfgHadOnly cfgFull
      false true true true true true rfl rfl rfl rfl rfl rfl).2.2.2.2.1 rfl "hadron"
      (by decide)⟩

/-! ## C5: the neutron tracking cut -/

/-- C5: for every configuration the "Neutron tracking cut" module is registered
if and only if `HadPhysics` and `TrackingCut` are both true.  When `HadPhysics`
is false, two runs that differ only in the value of `TrackingCut` register the
same sequence (same classes, same names, and the same modules up to the final
monopole module, which each run builds from its own parameter set), while the
log message of each run reports its own tracking-cut flag. -/
theorem C5_neutron_tracking_cut (map : G4LogicalVolumeToDDLogicalPartMap)
    (table_ : ParticleDataTable) (fieldBuilder_ : FieldBuilder) (p q : ParameterSet) :
    ("Neutron tracking cut" ∈ (QGSPCMS_EMV map table_ fieldBuilder_ p).names ↔
        p.getUntrackedParameter_bool "HadPhysics" true = true ∧
          p.getParameter_bool "TrackingCut" = Except.ok true) ∧
      (PhysicsClass.G4NeutronTrackingCut ∈ (QGSPCMS_EMV map table_ fieldBuilder_ p).kinds ↔
        p.getUntrackedParameter_bool "HadPhysics" true = true ∧
          p.getParameter_bool "TrackingCut" = Except.ok true) ∧
      (∀ trP trQ : Bool,
        p.getParameter_bool "TrackingCut" = Except.ok trP →
        q.getParameter_bool "TrackingCut" = Except.ok trQ →
        p.getUntrackedParameter_bool "HadPhysics" true = false →
        q.getUntrackedParameter_bool "HadPhysics" true = false →
        p.getUntrackedParameter_bool "EMPhysics" true =
          q.getUntrackedParameter_bool "EMPhysics" true →
        p.getUntrackedParameter_int "Verbosity" 0 = q.getUntrackedParameter_int "Verbosity" 0 →
        (QGSPCMS_EMV map table_ fieldBuilder_ p).kinds =
            (QGSPCMS_EMV map table_ fieldBuilder_ q).kinds ∧
          (QGSPCMS_EMV map table_ fieldBuilder_ p).names =
            (QGSPCMS_EMV map table_ fieldBuilder_ q).names ∧
          (QGSPCMS_EMV map table_ fieldBuilder_ p).registered.dropLast =
            (QGSPCMS_EMV map table_ fieldBuilder_ q).registered.dropLast ∧
          (QGSPCMS_EMV map table_ fieldBuilder_ p).registered.getLast? =
            some (G4VPhysicsConstructor.CMSMonopolePhysics table_ fieldBuilder_ p) ∧
          (QGSPCMS_EMV map table_ fieldBuilder_ q).registered.getLast? =
            some (G4VPhysicsConstructor.CMSMonopolePhysics table_ fieldBuilder_ q) ∧
          (QGSPCMS_EMV map table_ fieldBuilder_ p).state.messages =
            [("PhysicsList",
              [LogItem.text "You are using the simulation engine: ",
               LogItem.text "QGSP_EMV 3.3 with Flags for EM Physics ",
               LogItem.flag (p.getUntrackedParameter_bool "EMPhysics" true),
               LogItem.text ", for Hadronic Physics ",
               LogItem.flag false, LogItem.text " and tracking cut ",
               LogItem.flag trP])] ∧
          (QGSPCMS_EMV map table_ fieldBuilder_ q).state.messages =
            [("PhysicsList",
              [LogItem.text "You are using the simulation engine: ",
               LogItem.text "QGSP_EMV 3.3 with Flags for EM Physics ",
               LogItem.flag (q.getUntrackedParameter_bool "EMPhysics" true),
               LogItem.text ", for Hadronic Physics ",
               LogItem.flag false, LogItem.text " and tracking cut ",
               LogItem.flag trQ])]) := by
  refine ⟨?_, ?_, ?_⟩
  · cases htr : p.getParameter_bool "TrackingCut" with
    | error e =>
      rw [QGSPCMS_EMV_absent map table_ fieldBuilder_ p e htr]
      simp [Construction.names, Construction.registered, Construction.state]
    | ok tracking =>
      rw [QGSPCMS_EMV_present map table_ fieldBuilder_ p _ _ _ tracking rfl rfl rfl htr]
      generalize p.getUntrackedParameter_bool "EMPhysics" true = emPhys
      generalize p.getUntrackedParameter_bool "HadPhysics" true = hadPhys
      cases emPhys <;> cases hadPhys <;> cases tracking <;>
        simp [Construction.names, Construction.registered, Construction.state,
          G4VPhysicsConstructor.name]
  · cases htr : p.getParameter_bool "TrackingCut" with
    | error e =>
      rw [QGSPCMS_EMV_absent map table_ fieldBuilder_ p e htr]
      simp [Construction.kinds, Construction.registered, Construction.state]
    | ok tracking =>
      rw [QGSPCMS_EMV_present map table_ fieldBuilder_ p _ _ _ tracking rfl rfl rfl htr]
      generalize p.getUntrackedParameter_bool "EMPhysics" true = emPhys
      generalize p.getUntrackedParameter_bool "HadPhysics" true = hadPhys
      cases emPhys <;> cases hadPhys <;> cases tracking <;>
        simp [Construction.kinds, Construction.registered, Construction.state,
          G4VPhysicsConstructor.kind]
  · intro trP trQ htrP htrQ hhadP hhadQ hem hver
    rw [QGSPCMS_EMV_present map table_ fieldBuilder_ p _ _ false trP hver rfl hhadP htrP,
      QGSPCMS_EMV_present map table_ fieldBuilder_ q _ _ false trQ rfl rfl hhadQ htrQ]
    rw [hem]
    generalize q.getUntrackedParameter_bool "EMPhysics" true = emPhys
    cases emPhys <;>
      simp [Construction.kinds, Construction.names, Construction.registered,
        Construction.state, G4VPhysicsConstructor.kind, G4VPhysicsConstructor.name,
        List.dropLast]

/-- C5, instance: hadronic physics off, `TrackingCut` true in one run and false
in the other. -/
theorem C5_neutron_tracking_cut_witness :
    cfgBare.getParameter_bool "TrackingCut" = Except.ok true ∧
      cfgBareOff.getParameter_bool "TrackingCut" = Except.ok false ∧
      cfgBare.getUntrackedParameter_bool "HadPhysics" true = false ∧
      cfgBareOff.getUntrackedParameter_bool "HadPhysics" true = false ∧
      (QGSPCMS_EMV map0 table0 fieldBuilder0 cfgBare).names =
        (QGSPCMS_EMV map0 table0 fieldBuilder0 cfgBareOff).names ∧
      (QGSPCMS_EMV map0 table0 fieldBuilder0 cfgBare).registered.dropLast =
        (QGSPCMS_EMV map0 table0 fieldBuilder0 cfgBareOff).registered.dropLast :=
  ⟨rfl, rfl, rfl, rfl,
    ((C5_neutron_tracking_cut map0 table0 fieldBuilder0 cfgBare cfgBareOff).2.2
      true false rfl rfl rfl rfl rfl rfl).2.1,
    ((C5_neutron_tracking_cut map0 table0 fieldBuilder0 cfgBare cfgBareOff).2.2
      true false rfl rfl rfl rfl rfl rfl).2.2.1⟩

/-! ## C6: constructor arguments -/

/-- C6: for every configuration, every registered module that is built from a
name receives the `Verbosity` value `ver` unchanged if its name is one of
"standard EM v71", "decay", "elastic", "Neutron tracking cut", and receives no
verbosity argument otherwise; the "hadron" module is built with
`quasiElastic = true` and the "elastic" module with third argument `false`. -/
theorem C6_constructor_arguments (map : G4LogicalVolumeToDDLogicalPartMap)
    (table_ : ParticleDataTable) (fieldBuilder_ : FieldBuilder) (p : ParameterSet)
    (ver : Int) (hver : p.getUntrackedParameter_int "Verbosity" 0 = ver)
    (m : G4VPhysicsConstructor)
    (hm : m ∈ (QGSPCMS_EMV map table_ fieldBuilder_ p).registered) :
    (∀ n, m.name = some n →
        m.verbosity =
          if n ∈ ["standard EM v71", "decay", "elastic", "Neutron tracking cut"] then some ver
          else none) ∧
      (m.name = some "hadron" → m = G4VPhysicsConstructor.HadronPhysicsQGSP "hadron" true) ∧
      (m.name = some "elastic" →
        m = G4VPhysicsConstructor.G4HadronElasticPhysics "elastic" ver false) ∧
      (m.kind = PhysicsClass.HadronPhysicsQGSP →
        m = G4VPhysicsConstructor.HadronPhysicsQGSP "hadron" true) ∧
      (m.kind = PhysicsClass.G4HadronElasticPhysics →
        m = G4VPhysicsConstructor.G4HadronElasticPhysics "elastic" ver false) := by
  cases htr : p.getParameter_bool "TrackingCut" with
  | error e =>
    rw [QGSPCMS_EMV_absent map table_ fieldBuilder_ p e htr] at hm
    simp [Construction.registered, Construction.state] at hm
  | ok tracking =>
    rw [QGSPCMS_EMV_present map table_ fieldBuilder_ p ver _ _ tracking hver rfl rfl htr] at hm
    generalize p.getUntrackedParameter_bool "EMPhysics" true = emPhys at hm
    generalize p.getUntrackedParameter_bool "HadPhysics" true = hadPhys at hm
    cases emPhys <;> cases hadPhys <;> cases tracking <;>
      simp [Construction.registered, Construction.state] at hm <;>
      rcases hm with rfl | rfl | rfl | rfl | rfl | rfl | rfl | rfl | rfl <;>
      simp [G4VPhysicsConstructor.name, G4VPhysicsConstructor.verbosity,
        G4VPhysicsConstructor.kind]

/-- C6, instance: the elastic module of a run with `Verbosity = 2`. -/
theorem C6_constructor_arguments_witness :
    cfgFull.getUntrackedParameter_int "Verbosity" 0 = 2 ∧
      G4VPhysicsConstructor.G4HadronElasticPhysics "elastic" 2 false ∈
        (QGSPCMS_EMV map0 table0 fieldBuilder0 cfgFull).registered ∧
      (G4VPhysicsConstructor.G4HadronElasticPhysics "elastic" 2 false).verbosity =
        if "elastic" ∈ ["standard EM v71", "decay", "elastic", "Neutron tracking cut"]
        then some 2 else none :=
  ⟨rfl, by decide,
    (C6_constructor_arguments map0 table0 fieldBuilder0 cfgFull 2 rfl
      (G4VPhysicsConstructor.G4HadronElasticPhysics "elastic" 2 false) (by decide)).1
      "elastic" rfl⟩

/-! ## C7: configuration lookup -/

/-- An `int` lookup with default is the stored value or the default. -/
theorem getUntrackedParameter_int_eq (p : ParameterSet) (name : String) (d : Int) :
    p.getUntrackedParameter_int name d = (p.int32s.lookup name).getD d := by
  unfold ParameterSet.getUntrackedParameter_int
  cases p.int32s.lookup name <;> rfl

/-- A `bool` lookup with default is the stored value or the default. -/
theorem getUntrackedParameter_bool_eq (p : ParameterSet) (name : String) (d : Bool) :
    p.getUntrackedParameter_bool name d = (p.bools.lookup name).getD d := by
  unfold ParameterSet.getUntrackedParameter_bool
  cases p.bools.lookup name <;> rfl

/-- C7: `Verbosity` defaults to 0 and `EMPhysics`, `HadPhysics` default to true
when absent, whereas `TrackingCut` has no default: construction fails if and
only if `TrackingCut` is absent, and then nothing has been registered (nor
logged).  When `TrackingCut` is present the registered sequence is the one
selected by the stored-or-default values.  A configuration holding only
`TrackingCut = true` registers the full nine-module sequence with verbosity 0,
one holding only `TrackingCut = false` the eight-module sequence without the
neutron tracking cut. -/
theorem C7_configuration_lookup (map : G4LogicalVolumeToDDLogicalPartMap)
    (table_ : ParticleDataTable) (fieldBuilder_ : FieldBuilder) (p : ParameterSet) :
    ((QGSPCMS_EMV map table_ fieldBuilder_ p).failed = true ↔
        p.bools.lookup "TrackingCut" = none) ∧
      (p.bools.lookup "TrackingCut" = none →
        (QGSPCMS_EMV map table_ fieldBuilder_ p).registered = [] ∧
          (QGSPCMS_EMV map table_ fieldBuilder_ p).state.messages = []) ∧
      (∀ tracking : Bool, p.bools.lookup "TrackingCut" = some tracking →
        (QGSPCMS_EMV map table_ fieldBuilder_ p).registered =
          (if (p.bools.lookup "EMPhysics").getD true then
            [G4VPhysicsConstructor.CMSEmStandardPhysics71 "standard EM v71"
               ((p.int32s.lookup "Verbosity").getD 0),
             G4VPhysicsConstructor.G4EmExtraPhysics "extra EM"]
           else []) ++
          [G4VPhysicsConstructor.G4DecayPhysics "decay" ((p.int32s.lookup "Verbosity").getD 0)] ++
          (if (p.bools.lookup "HadPhysics").getD true then
            [G4VPhysicsConstructor.G4HadronElasticPhysics "elastic"
               ((p.int32s.lookup "Verbosity").getD 0) false,
             G4VPhysicsConstructor.HadronPhysicsQGSP "hadron" true,
             G4VPhysicsConstructor.G4QStoppingPhysics "stopping",
             G4VPhysicsConstructor.G4IonPhysics "ion"] ++
            (if tracking then
              [G4VPhysicsConstructor.G4NeutronTrackingCut "Neutron tracking cut"
                 ((p.int32s.lookup "Verbosity").getD 0)]
             else [])
           else []) ++
          [G4VPhysicsConstructor.CMSMonopolePhysics table_ fieldBuilder_ p]) ∧
      (QGSPCMS_EMV map table_ fieldBuilder_ cfgTrackingOn).registered =
        [G4VPhysicsConstructor.CMSEmStandardPhysics71 "standard EM v71" 0,
         G4VPhysicsConstructor.G4EmExtraPhysics "extra EM",
         G4VPhysicsConstructor.G4DecayPhysics "decay" 0,
         G4VPhysicsConstructor.G4HadronElasticPhysics "elastic" 0 false,
         G4VPhysicsConstructor.HadronPhysicsQGSP "hadron" true,
         G4VPhysicsConstructor.G4QStoppingPhysics "stopping",
         G4VPhysicsConstructor.G4IonPhysics "ion",
         G4VPhysicsConstructor.G4NeutronTrackingCut "Neutron tracking cut" 0,
         G4VPhysicsConstructor.CMSMonopolePhysics table_ fieldBuilder_ cfgTrackingOn] ∧
      (QGSPCMS_EMV map table_ fieldBuilder_ cfgTrackingOff).registered =
        [G4VPhysicsConstructor.CMSEmStandardPhysics71 "standard EM v71" 0,
         G4VPhysicsConstructor.G4EmExtraPhysics "extra EM",
         G4VPhysicsConstructor.G4DecayPhysics "decay" 0,
         G4VPhysicsConstructor.G4HadronElasticPhysics "elastic" 0 false,
         G4VPhysicsConstructor.HadronPhysicsQGSP "hadron" true,
         G4VPhysicsConstructor.G4QStoppingPhysics "stopping",
         G4VPhysicsConstructor.G4IonPhysics "ion",
         G4VPhysicsConstructor.CMSMonopolePhysics table_ fieldBuilder_ cfgTrackingOff] := by
  refine ⟨?_, ?_, ?_, ?_, ?_⟩
  · cases hl : p.bools.lookup "TrackingCut" with
    | none =>
      have htr : p.getParameter_bool "TrackingCut" =
          Except.error (Exception.MissingParameter "TrackingCut") := by
        simp [ParameterSet.getParameter_bool, hl]
      rw [QGSPCMS_EMV_absent map table_ fieldBuilder_ p _ htr]
      simp [Construction.failed]
    | some tracking =>
      have htr := (getParameter_bool_ok_iff p "TrackingCut" tracking).2 hl
      rw [QGSPCMS_EMV_present map table_ fieldBuilder_ p _ _ _ tracking rfl rfl rfl htr]
      simp [Construction.failed]
  · intro hl
    have htr : p.getParameter_bool "TrackingCut" =
        Except.error (Exception.MissingParameter "TrackingCut") := by
      simp [ParameterSet.getParameter_bool, hl]
    rw [QGSPCMS_EMV_absent map table_ fieldBuilder_ p _ htr]
    simp [Construction.registered, Construction.state]
  · intro tracking hl
    have htr := (getParameter_bool_ok_iff p "TrackingCut" tracking).2 hl
    rw [QGSPCMS_EMV_present map table_ fieldBuilder_ p _ _ _ tracking
      (getUntrackedParameter_int_eq p "Verbosity" 0)
      (getUntrackedParameter_bool_eq p "EMPhysics" true)
      (getUntrackedParameter_bool_eq p "HadPhysics" true) htr]
    rfl
  · rw [QGSPCMS_EMV_present map table_ fieldBuilder_ cfgTrackingOn 0 true true true
      rfl rfl rfl rfl]
    rfl
  · rw [QGSPCMS_EMV_present map table_ fieldBuilder_ cfgTrackingOff 0 true true false
      rfl rfl rfl rfl]
    rfl

/-- C7, instance: the empty configuration fails with nothing registered. -/
theorem C7_configuration_lookup_witness :
    cfgEmpty.bools.lookup "TrackingCut" = none ∧
      (QGSPCMS_EMV map0 table0 fieldBuilder0 cfgEmpty).failed = true ∧
      (QGSPCMS_EMV map0 table0 fieldBuilder0 cfgEmpty).registered = [] ∧
      (QGSPCMS_EMV map0 table0 fieldBuilder0 cfgEmpty).state.messages = [] :=
  ⟨rfl, (C7_configuration_lookup map0 table0 fieldBuilder0 cfgEmpty).1.2 rfl,
    (C7_configuration_lookup map0 table0 fieldBuilder0 cfgEmpty).2.1 rfl⟩

/-! ## C8: no module is registered twice -/

/-- C8: for every configuration, no module is registered twice: the registered
modules are pairwise distinct, their classes are pairwise distinct, and the
names given to them are pairwise distinct and drawn from the eight pairwise
distinct names "standard EM v71", "extra EM", "decay", "elastic", "hadron",
"stopping", "ion", "Neutron tracking cut". -/
theorem C8_no_module_registered_twice (map : G4LogicalVolumeToDDLogicalPartMap)
    (table_ : ParticleDataTable) (fieldBuilder_ : FieldBuilder) (p : ParameterSet) :
    (QGSPCMS_EMV map table_ fieldBuilder_ p).registered.Nodup ∧
      (QGSPCMS_EMV map table_ fieldBuilder_ p).kinds.Nodup ∧
      (QGSPCMS_EMV map table_ fieldBuilder_ p).names.Nodup ∧
      (QGSPCMS_EMV map table_ fieldBuilder_ p).names ⊆
        ["standard EM v71", "extra EM", "decay", "elastic", "hadron", "stopping", "ion",
         "Neutron tracking cut"] ∧
      ["standard EM v71", "extra EM", "decay", "elastic", "hadron", "stopping", "ion",
       "Neutron tracking cut"].Nodup := by
  cases htr : p.getParameter_bool "TrackingCut" with
  | error e =>
    rw [QGSPCMS_EMV_absent map table_ fieldBuilder_ p e htr]
    simp [Construction.kinds, Construction.names, Construction.registered, Construction.state]
  | ok tracking =>
    rw [QGSPCMS_EMV_present map table_ fieldBuilder_ p _ _ _ tracking rfl rfl rfl htr]
    generalize p.getUntrackedParameter_bool "EMPhysics" true = emPhys
    generalize p.getUntrackedParameter_bool "HadPhysics" true = hadPhys
    cases emPhys <;> cases hadPhys <;> cases tracking <;>
      simp [Construction.kinds, Construction.names, Construction.registered,
        Construction.state, G4VPhysicsConstructor.kind, G4VPhysicsConstructor.name]

/-! ## C9: verbosity does not select modules -/

/-- C9: two configurations that agree on `EMPhysics`, `HadPhysics` and
`TrackingCut`, whatever their `Verbosity`, register the same sequence of module
names and of module classes, and fail or complete alike. -/
theorem C9_verbosity_does_not_select (map : G4LogicalVolumeToDDLogicalPartMap)
    (table_ : ParticleDataTable) (fieldBuilder_ : FieldBuilder) (p q : ParameterSet)
    (hem : p.getUntrackedParameter_bool "EMPhysics" true =
      q.getUntrackedParameter_bool "EMPhysics" true)
    (hhad : p.getUntrackedParameter_bool "HadPhysics" true =
      q.getUntrackedParameter_bool "HadPhysics" true)
    (htr : p.getParameter_bool "TrackingCut" = q.getParameter_bool "TrackingCut") :
    (QGSPCMS_EMV map table_ fieldBuilder_ p).names =
        (QGSPCMS_EMV map table_ fieldBuilder_ q).names ∧
      (QGSPCMS_EMV map table_ fieldBuilder_ p).registered.map G4VPhysicsConstructor.name =
        (QGSPCMS_EMV map table_ fieldBuilder_ q).registered.map G4VPhysicsConstructor.name ∧
      (QGSPCMS_EMV map table_ fieldBuilder_ p).kinds =
        (QGSPCMS_EMV map table_ fieldBuilder_ q).kinds ∧
      (QGSPCMS_EMV map table_ fieldBuilder_ p).failed =
        (QGSPCMS_EMV map table_ fieldBuilder_ q).failed := by
  cases hq : q.getParameter_bool "TrackingCut" with
  | error e =>
    rw [QGSPCMS_EMV_absent map table_ fieldBuilder_ p e (htr.trans hq),
      QGSPCMS_EMV_absent map table_ fieldBuilder_ q e hq]
    simp [Construction.names, Construction.registered, Construction.state]
  | ok tracking =>
    rw [QGSPCMS_EMV_present map table_ fieldBuilder_ p _ _ _ tracking rfl hem hhad
        (htr.trans hq),
      QGSPCMS_EMV_present map table_ fieldBuilder_ q _ _ _ tracking rfl rfl rfl hq]
    generalize q.getUntrackedParameter_bool "EMPhysics" true = emPhys
    generalize q.getUntrackedParameter_bool "HadPhysics" true = hadPhys
    cases emPhys <;> cases hadPhys <;> cases tracking <;>
      simp [Construction.kinds, Construction.names, Construction.registered,
        Construction.state, Construction.failed, G4VPhysicsConstructor.kind,
        G4VPhysicsConstructor.name]

/-- C9, instance: `Verbosity = 2` against `Verbosity = 7`, all flags true. -/
theorem C9_verbosity_does_not_select_witness :
    cfgFull.getUntrackedParameter_int "Verbosity" 0 = 2 ∧
      cfgFullLoud.getUntrackedParameter_int "Verbosity" 0 = 7 ∧
      cfgFull.getUntrackedParameter_bool "EMPhysics" true =
        cfgFullLoud.getUntrackedParameter_bool "EMPhysics" true ∧
      cfgFull.getUntrackedParameter_bool "HadPhysics" true =
        cfgFullLoud.getUntrackedParameter_bool "HadPhysics" true ∧
      cfgFull.getParameter_bool "TrackingCut" = cfgFullLoud.getParameter_bool "TrackingCut" ∧
      (QGSPCMS_EMV map0 table0 fieldBuilder0 cfgFull).names =
        (QGSPCMS_EMV map0 table0 fieldBuilder0 cfgFullLoud).names :=
  ⟨rfl, rfl, rfl, rfl, rfl,
    (C9_verbosity_does_not_select map0 table0 fieldBuilder0 cfgFull cfgFullLoud
      rfl rfl rfl).1⟩

end QGSPCMS
